import Mathlib

/-!
Verification of the concurrent LLM fan-out core (`src/actions/concurrent_llm.py`)
of the mcp-demo-2 repository.

The Python module exposes one operation, `evaluation_sub_agent_action`
(the spec calls it `run_batch`): it validates three configuration values,
then launches `num_calls` copies of the inner coroutine `make_llm_call`,
gathers them in task order, and returns the list of per-call result dicts.

Shallow embedding choices:
* A parsed JSON body (the value returned by Python's `response.json()`) is
  a `JsonVal`; objects model Python dicts produced by `json.loads`, whose
  keys are unique, so first-match lookup is exact.  Numeric literals are
  modelled as integers (the fields the code reads are integral).
* The network is an oracle: each call's single round trip yields a
  `NetOutcome`, either a transport error (`httpx.RequestError`) or a
  response carrying status code, reason phrase, raw text, and the result
  of `response.json()` (`Except` error = a JSON decode exception).
* `asyncio.gather(*tasks)` returns results in task-creation order no
  matter the completion order; the embedding therefore maps over
  `call_id = 0..n-1` directly, with the oracle free to model any
  completion interleaving (outcomes are per-call, order-independent).
* Every exception path of the Python code is explicit: `Except String`
  values carry the `str(e)` message that the corresponding Python
  exception would produce.
-/

/-- Parsed JSON value as it lands in Python after `response.json()`. -/
inductive JsonVal where
  | null : JsonVal
  | bool : Bool → JsonVal
  | num : Int → JsonVal
  | str : String → JsonVal
  | arr : List JsonVal → JsonVal
  | obj : List (String × JsonVal) → JsonVal

namespace JsonVal

/-- Python `type(x)` name for a JSON-decoded value. -/
def pyTypeName : JsonVal → String
  | .null => "NoneType"
  | .bool _ => "bool"
  | .num _ => "int"
  | .str _ => "str"
  | .arr _ => "list"
  | .obj _ => "dict"

/-- Python truthiness (`if not x`) for a JSON-decoded value. -/
def pyTruthy : JsonVal → Bool
  | .null => false
  | .bool b => b
  | .num n => n != 0
  | .str s => !s.isEmpty
  | .arr l => !l.isEmpty
  | .obj l => !l.isEmpty

end JsonVal

/-- Lookup in a decoded JSON object (a Python dict: keys unique),
with a default, mirroring `d.get(key, default)` on a known dict. -/
def dictGetD (fields : List (String × JsonVal)) (key : String)
    (default : JsonVal) : JsonVal :=
  match fields.lookup key with
  | some v => v
  | none => default

/-- Python `x.get(key, default)` on an arbitrary value: succeeds only on a
dict, otherwise raises `AttributeError` (its `str(e)` message). -/
def pyGet (x : JsonVal) (key : String) (default : JsonVal) :
    Except String JsonVal :=
  match x with
  | .obj fields => .ok (dictGetD fields key default)
  | v => .error ("'" ++ v.pyTypeName ++ "' object has no attribute 'get'")

/-- Python `x[0]` on an arbitrary value (the code only indexes position 0):
list head, string head, `KeyError` on a dict (JSON keys are strings, so
integer key 0 is always missing and `str(KeyError(0))` is `"0"`), and
`TypeError` on non-subscriptable values. -/
def pySubscript0 (x : JsonVal) : Except String JsonVal :=
  match x with
  | .arr (h :: _) => .ok h
  | .arr [] => .error "list index out of range"
  | .str s =>
    match s.data with
    | c :: _ => .ok (.str (String.mk [c]))
    | [] => .error "string index out of range"
  | .obj _ => .error "0"
  | v => .error ("'" ++ v.pyTypeName ++ "' object is not subscriptable")

/-- Outcome of the single network round trip of one call unit. -/
inductive NetOutcome where
  /-- `httpx.RequestError` (connection refused, DNS failure, timeout):
  `msg` is `str(e)`. -/
  | requestError (msg : String) : NetOutcome
  /-- An HTTP response was received: status code, reason phrase, body text,
  and the result of `response.json()` (error = decode exception message). -/
  | httpResponse (status : Nat) (reason : String) (text : String)
      (json : Except String JsonVal) : NetOutcome

/-- The per-call result dict built by `make_llm_call` (lines 98-140).
The success branch has no `error` key (`error = none`); the failure
branches set `response` to Python `None`, i.e. `JsonVal.null`. -/
structure CallResult where
  call_id : Nat
  success : Bool
  response : JsonVal
  error : Option String
  tokens_used : JsonVal

/-- The failure-shaped result common to the three `except` handlers
(lines 114-120, 124-130, 134-140). -/
def mkFailure (call_id : Nat) (error_msg : String) : CallResult :=
  { call_id := call_id
    success := false
    response := .null
    error := some error_msg
    tokens_used := .num 0 }

/-- Token extraction of lines 95-96:
`usage = result.get('usage', {})`;
`tokens_used = usage.get('total_tokens', 0) if isinstance(usage, dict) else 0`.
The value found under `total_tokens` is passed through verbatim. -/
def usageTokens (fields : List (String × JsonVal)) : JsonVal :=
  match dictGetD fields "usage" (.obj []) with
  | .obj ufields => dictGetD ufields "total_tokens" (.num 0)
  | _ => .num 0

/-- The success path of `make_llm_call` on the decoded 2xx body
(lines 86-96): type check, `choices` extraction and truthiness test,
`choices[0].get('message', {}).get('content', '')`, token extraction.
An `Except.error` is the `str(e)` of the exception the Python code raises
(or hits), which the outer `except Exception` handler then catches. -/
def interpretBody (j : JsonVal) : Except String (JsonVal × JsonVal) :=
  match j with
  | .obj fields =>
    let choices := dictGetD fields "choices" (.arr [])
    if !choices.pyTruthy then
      .error "No choices in response"
    else
      match pySubscript0 choices with
      | .error e => .error e
      | .ok c0 =>
        match pyGet c0 "message" (.obj []) with
        | .error e => .error e
        | .ok message =>
          match pyGet message "content" (.str "") with
          | .error e => .error e
          | .ok content => .ok (content, usageTokens fields)
  | v => .error ("Expected dict response, got <class '" ++ v.pyTypeName ++ "'>")

/-- The (content, tokens) outcome or error message of one call's guarded
block (lines 70-96).  `response.raise_for_status()` raises
`httpx.HTTPStatusError` exactly when the status is not 2xx; its handler
(lines 105-120) formats `"HTTP code: reason"` and appends
`" - body text"` (the inner `try` around `e.response.text` cannot fail on
an already-received response).  The `httpx.RequestError` handler
(lines 121-130) produces `"Request failed: str(e)"`.  Every other
exception of the guarded block — a JSON decode error from
`response.json()` or any exception of the body interpretation — reaches
the `except Exception` handler (lines 131-140) and becomes
`"Unexpected error: str(e)"`. -/
def callOutcome (net : NetOutcome) : Except String (JsonVal × JsonVal) :=
  match net with
  | .requestError msg => .error ("Request failed: " ++ msg)
  | .httpResponse status reason text json =>
    if 200 ≤ status ∧ status ≤ 299 then
      match json with
      | .error e => .error ("Unexpected error: " ++ e)
      | .ok j =>
        match interpretBody j with
        | .error e => .error ("Unexpected error: " ++ e)
        | .ok res => .ok res
    else
      .error ("HTTP " ++ toString status ++ ": " ++ reason ++ " - " ++ text)

/-- `make_llm_call` (lines 51-140), as a function of the network outcome
of its one round trip: the success dict of lines 98-103, or the failure
dict of the handler that caught the exception. -/
def make_llm_call (net : NetOutcome) (call_id : Nat) : CallResult :=
  match callOutcome net with
  | .error msg => mkFailure call_id msg
  | .ok (content, tokens) =>
    { call_id := call_id
      success := true
      response := content
      error := none
      tokens_used := tokens }

/-- The resolved global configuration (lines 17-20).  `none` models an
unset environment variable / vault miss; Python's `if not x` check is
falsy for both `None` and the empty string.  The temperature float is
modelled as an exact rational: the code never computes with it, it only
copies it into the payload. -/
structure Config where
  api_key : Option String
  base_url : Option String
  model : Option String
  temperature : Rat
deriving Repr, DecidableEq

/-- Python falsiness of an optional string config value (`None` or `""`). -/
def pyFalsyStr : Option String → Bool
  | none => true
  | some s => s == ""

/-- Python `s.startswith(p)`, computed on the character lists. -/
def pyStartsWith (s p : String) : Bool :=
  p.data.isPrefixOf s.data

/-- The outbound request body (lines 54-65): model, the two ordered
(role, content) messages, and the conditionally included temperature.
The condition is line 64 verbatim:
`if LLM_MODEL and not LLM_MODEL.startswith('gpt-5')`. -/
structure Payload where
  model : String
  messages : List (String × String)
  temperature : Option Rat
deriving Repr, DecidableEq

def buildPayload (model : String) (temp : Rat)
    (system_prompt context : String) : Payload :=
  { model := model
    messages := [("system", system_prompt), ("user", context)]
    temperature :=
      if !(model == "") && !pyStartsWith model "gpt-5" then some temp
      else none }

/-- One outbound HTTP request (lines 67-76): URL, Authorization header
value, JSON payload. -/
structure Request where
  url : String
  auth : String
  payload : Payload
deriving Repr, DecidableEq

def buildRequest (cfg : Config) (system_prompt context : String) : Request :=
  { url := (cfg.base_url.getD "") ++ "/chat/completions"
    auth := "Bearer " ++ (cfg.api_key.getD "")
    payload := buildPayload (cfg.model.getD "") cfg.temperature
        system_prompt context }

/-- `evaluation_sub_agent_action` (lines 23-158), the spec's `run_batch`.
The three configuration checks (lines 42-49) raise `ValueError` before
any task is created (line 143); `Except.error` carries the message.
`asyncio.gather` (line 146) returns the results in task-creation order
`call_id = 0..num_calls-1` regardless of completion order; the network
oracle `net` gives each call's outcome.  `num_calls` is a Python int:
`range(n)` is empty for `n ≤ 0`, i.e. `List.range n.toNat`. -/
def evaluation_sub_agent_action (cfg : Config) (context : String)
    (num_calls : Int) (system_prompt : String) (net : Nat → NetOutcome) :
    Except String (List CallResult) :=
  if pyFalsyStr cfg.api_key then .error "LLM API key is required"
  else if pyFalsyStr cfg.base_url then .error "LLM_BASE_URL is required"
  else if pyFalsyStr cfg.model then .error "LLM_MODEL is required"
  else .ok ((List.range num_calls.toNat).map fun i => make_llm_call (net i) i)

/-- The requests the batch puts on the wire: none when the configuration
checks (lines 42-49) raise — they precede task creation (line 143) — and
one per call unit otherwise (each task POSTs once, line 72). -/
def issuedRequests (cfg : Config) (context : String) (num_calls : Int)
    (system_prompt : String) (net : Nat → NetOutcome) : List Request :=
  match evaluation_sub_agent_action cfg context num_calls system_prompt net with
  | .error _ => []
  | .ok _ =>
    (List.range num_calls.toNat).map fun _ => buildRequest cfg system_prompt context

/-- Python `sum` step over the `tokens_used` values (line 151): int + int
and int + bool succeed (`True` counts as 1), anything else raises
`TypeError`. -/
def pyAdd (acc : Int) (v : JsonVal) : Except String Int :=
  match v with
  | .num n => .ok (acc + n)
  | .bool b => .ok (acc + if b then 1 else 0)
  | v => .error ("unsupported operand type(s) for +: 'int' and '" ++
      v.pyTypeName ++ "'")

/-- `sum(r["tokens_used"] for r in results)` (line 151), starting at 0. -/
def pySum (l : List JsonVal) : Except String Int :=
  l.foldlM pyAdd 0

/-- The derived batch summary (lines 148-153): success/failure counts and
the token total, folded from the result list. -/
structure BatchSummary where
  total_calls : Nat
  successful_calls : Nat
  failed_calls : Nat
  total_tokens_used : Except String Int

def batchSummary (results : List CallResult) : BatchSummary :=
  { total_calls := results.length
    successful_calls := (results.filter (fun r => r.success)).length
    failed_calls := (results.filter (fun r => !r.success)).length
    total_tokens_used := pySum (results.map (fun r => r.tokens_used)) }

/-! ### Helper lemmas -/

theorem strAppend_assoc (a b c : String) : a ++ b ++ c = a ++ (b ++ c) :=
  String.ext (by simp [String.data_append, List.append_assoc])

theorem strAppend_empty (s : String) : s ++ "" = s :=
  String.ext (by simp [String.data_append])

theorem strAppend_ne_empty_left (a b : String) (h : a ≠ "") : a ++ b ≠ "" := by
  intro hab
  apply h
  have hd : (a ++ b).data = ([] : List Char) := by rw [hab]
  rw [String.data_append] at hd
  rcases List.append_eq_nil.mp hd with ⟨ha, _⟩
  exact String.ext (ha.trans rfl)

/-- Substring containment, used to state that an error message mentions a
status code or a body snippet. -/
def strContains (s sub : String) : Prop := ∃ a b, s = a ++ sub ++ b

theorem make_llm_call_of_error (net : NetOutcome) (id : Nat) (msg : String)
    (h : callOutcome net = .error msg) :
    make_llm_call net id = mkFailure id msg := by
  simp [make_llm_call, h]

theorem make_llm_call_of_ok (net : NetOutcome) (id : Nat) (c t : JsonVal)
    (h : callOutcome net = .ok (c, t)) :
    make_llm_call net id =
      { call_id := id, success := true, response := c, error := none,
        tokens_used := t } := by
  simp [make_llm_call, h]

theorem make_llm_call_call_id (net : NetOutcome) (id : Nat) :
    (make_llm_call net id).call_id = id := by
  cases h : callOutcome net with
  | error e => rw [make_llm_call_of_error net id e h]; rfl
  | ok p => obtain ⟨c, t⟩ := p; rw [make_llm_call_of_ok net id c t h]

theorem callOutcome_error_ne_empty (net : NetOutcome) (msg : String)
    (h : callOutcome net = .error msg) : msg ≠ "" := by
  cases net with
  | requestError m =>
    simp only [callOutcome, Except.error.injEq] at h
    exact h ▸ strAppend_ne_empty_left _ _ (by decide)
  | httpResponse st r t j =>
    simp only [callOutcome] at h
    split at h
    · cases j with
      | error e =>
        simp only [Except.error.injEq] at h
        exact h ▸ strAppend_ne_empty_left _ _ (by decide)
      | ok v =>
        dsimp only at h
        cases hi : interpretBody v with
        | error e =>
          rw [hi] at h
          simp only [Except.error.injEq] at h
          exact h ▸ strAppend_ne_empty_left _ _ (by decide)
        | ok p => rw [hi] at h; exact absurd h (by simp)
    · simp only [Except.error.injEq] at h
      subst h
      exact strAppend_ne_empty_left _ _
        (strAppend_ne_empty_left _ _
          (strAppend_ne_empty_left _ _
            (strAppend_ne_empty_left _ _
              (strAppend_ne_empty_left _ _ (by decide)))))

theorem interpretBody_ok_snd (fs : List (String × JsonVal))
    (p : JsonVal × JsonVal) (h : interpretBody (.obj fs) = .ok p) :
    p.2 = usageTokens fs := by
  simp only [interpretBody] at h
  split at h
  · simp at h
  · split at h
    · simp at h
    · split at h
      · simp at h
      · split at h
        · simp at h
        · simp only [Except.ok.injEq] at h
          rw [← h]

theorem length_filter_add_length_filter_not {α : Type} (p : α → Bool)
    (l : List α) :
    (l.filter p).length + (l.filter (fun a => !p a)).length = l.length := by
  induction l with
  | nil => rfl
  | cons x xs ih =>
    by_cases hx : p x <;>
      simp [List.filter_cons, hx, ← ih] <;> omega

theorem foldlM_pyAdd_map_num (ts : List Int) (acc : Int) :
    (ts.map JsonVal.num).foldlM pyAdd acc = .ok (acc + ts.sum) := by
  induction ts generalizing acc with
  | nil =>
    have hnil : (List.map JsonVal.num ([] : List Int)).foldlM pyAdd acc
        = Except.ok acc := rfl
    rw [hnil, List.sum_nil, Int.add_zero]
  | cons t ts ih =>
    have hstep : (List.map JsonVal.num (t :: ts)).foldlM pyAdd acc
        = (List.map JsonVal.num ts).foldlM pyAdd (acc + t) := rfl
    rw [hstep, ih, List.sum_cons]
    congr 1
    omega

theorem pySum_map_num (ts : List Int) :
    pySum (ts.map JsonVal.num) = .ok ts.sum := by
  have := foldlM_pyAdd_map_num ts 0
  rw [Int.zero_add] at this
  exact this

/-! ### Claims -/

/-- C1: for every `num_calls = k ≥ 1`, when the API key, base URL and model
are all set and every call unit completes (the network oracle gives each
call an outcome, whatever it is and in whatever completion order —
`asyncio.gather` keeps task order), `evaluation_sub_agent_action` returns
exactly k CallResults whose `call_id` values are `0..k-1` in that order. -/
theorem claim_C1_ordered_ids (cfg : Config) (context system_prompt : String)
    (net : Nat → NetOutcome) (k : Int)
    (hkey : pyFalsyStr cfg.api_key = false)
    (hurl : pyFalsyStr cfg.base_url = false)
    (hmodel : pyFalsyStr cfg.model = false)
    (hk : 1 ≤ k) :
    ∃ rs, evaluation_sub_agent_action cfg context k system_prompt net = .ok rs
      ∧ rs.length = k.toNat
      ∧ rs.map (fun r => r.call_id) = List.range k.toNat := by
  have hact : evaluation_sub_agent_action cfg context k system_prompt net
      = .ok ((List.range k.toNat).map fun i => make_llm_call (net i) i) := by
    simp [evaluation_sub_agent_action, hkey, hurl, hmodel]
  refine ⟨_, hact, by simp, ?_⟩
  rw [List.map_map]
  have hcongr : ∀ i ∈ List.range k.toNat,
      ((fun r => CallResult.call_id r) ∘ fun i => make_llm_call (net i) i) i
        = id i := by
    intro i _
    simp [make_llm_call_call_id]
  rw [List.map_congr_left hcongr, List.map_id]

/-- C1 witness: a concrete valid configuration and a batch of 2 calls. -/
theorem claim_C1_ordered_ids_witness :
    ∃ rs, evaluation_sub_agent_action
        ⟨some "key", some "https://api.example", some "gpt-4o", 3/10⟩
        "ctx" 2 "sys" (fun _ => .requestError "boom") = .ok rs
      ∧ rs.length = (2 : Int).toNat
      ∧ rs.map (fun r => r.call_id) = List.range (2 : Int).toNat :=
  claim_C1_ordered_ids
    ⟨some "key", some "https://api.example", some "gpt-4o", 3/10⟩
    "ctx" "sys" (fun _ => .requestError "boom") 2 rfl rfl rfl (by decide)

/-- C2: a single call unit never propagates an error: for every network
outcome the returned CallResult carries the requested `call_id`; a
successful result has no `error`, and every failure is captured as
`success = false` with a descriptive (nonempty) `error` string.
Totality is the type of `make_llm_call` itself: every failure mode of the
guarded block is one of the `NetOutcome` / decode / shape cases, and each
maps to a returned CallResult, so a failing call cannot abort siblings. -/
theorem claim_C2_never_raises (net : NetOutcome) (id : Nat) :
    (make_llm_call net id).call_id = id ∧
    ((make_llm_call net id).success = true → (make_llm_call net id).error = none) ∧
    ((make_llm_call net id).success = false →
      ∃ s, (make_llm_call net id).error = some s ∧ s ≠ "") := by
  refine ⟨make_llm_call_call_id net id, ?_, ?_⟩
  · cases h : callOutcome net with
    | error msg =>
      rw [make_llm_call_of_error net id msg h]
      intro hs
      exact absurd hs (by simp [mkFailure])
    | ok p =>
      obtain ⟨c, t⟩ := p
      rw [make_llm_call_of_ok net id c t h]
      intro
      rfl
  · cases h : callOutcome net with
    | error msg =>
      rw [make_llm_call_of_error net id msg h]
      intro
      exact ⟨msg, rfl, callOutcome_error_ne_empty net msg h⟩
    | ok p =>
      obtain ⟨c, t⟩ := p
      rw [make_llm_call_of_ok net id c t h]
      intro hs
      exact absurd hs (by simp)

/-- C2 witness: a timed-out call is captured locally, not raised. -/
theorem claim_C2_never_raises_witness :
    ∃ s, (make_llm_call (.requestError "timeout") 7).error = some s ∧ s ≠ "" :=
  (claim_C2_never_raises (.requestError "timeout") 7).2.2 rfl

/-- The configuration is rejected by the checks of lines 42-49: API key,
base URL or model unset/empty (Python falsiness). -/
def configInvalid (cfg : Config) : Prop :=
  pyFalsyStr cfg.api_key = true ∨ pyFalsyStr cfg.base_url = true ∨
    pyFalsyStr cfg.model = true

/-- C3: a batch either fails with a single configuration error — raised
before any task is created, so zero network requests are issued — or
returns exactly `num_calls` results; never a mix.  The error branch
occurs exactly when the API key, base URL or model is unset/empty. -/
theorem claim_C3_config_error_or_full_batch (cfg : Config)
    (context system_prompt : String) (net : Nat → NetOutcome) (k : Int) :
    (∃ msg,
      evaluation_sub_agent_action cfg context k system_prompt net = .error msg
      ∧ issuedRequests cfg context k system_prompt net = []
      ∧ configInvalid cfg)
    ∨ (∃ rs,
      evaluation_sub_agent_action cfg context k system_prompt net = .ok rs
      ∧ rs.length = k.toNat
      ∧ ¬ configInvalid cfg) := by
  cases hkey : pyFalsyStr cfg.api_key with
  | true =>
    left
    exact ⟨"LLM API key is required",
      by simp [evaluation_sub_agent_action, hkey],
      by simp [issuedRequests, evaluation_sub_agent_action, hkey],
      Or.inl hkey⟩
  | false =>
    cases hurl : pyFalsyStr cfg.base_url with
    | true =>
      left
      exact ⟨"LLM_BASE_URL is required",
        by simp [evaluation_sub_agent_action, hkey, hurl],
        by simp [issuedRequests, evaluation_sub_agent_action, hkey, hurl],
        Or.inr (Or.inl hurl)⟩
    | false =>
      cases hmodel : pyFalsyStr cfg.model with
      | true =>
        left
        exact ⟨"LLM_MODEL is required",
          by simp [evaluation_sub_agent_action, hkey, hurl, hmodel],
          by simp [issuedRequests, evaluation_sub_agent_action, hkey, hurl,
            hmodel],
          Or.inr (Or.inr hmodel)⟩
      | false =>
        right
        refine ⟨(List.range k.toNat).map fun i => make_llm_call (net i) i,
          ?_, ?_, ?_⟩
        · simp [evaluation_sub_agent_action, hkey, hurl, hmodel]
        · simp
        · simp [configInvalid, hkey, hurl, hmodel]

/-- C4: the outbound request body omits the `temperature` field exactly
for model names starting with the reserved prefix `gpt-5`; for every
other (non-empty — the aggregator rejects empty models before any payload
is built) model name, the body carries the configured default. -/
theorem claim_C4_temperature_rule (model : String) (temp : Rat)
    (system_prompt context : String) :
    (pyStartsWith model "gpt-5" = true →
      (buildPayload model temp system_prompt context).temperature = none)
    ∧ (model ≠ "" → pyStartsWith model "gpt-5" = false →
      (buildPayload model temp system_prompt context).temperature = some temp) := by
  constructor
  · intro hp
    simp [buildPayload, hp]
  · intro hne hp
    have hbeq : (model == "") = false := beq_eq_false_iff_ne.mpr hne
    simp [buildPayload, hp, hbeq]

/-- C4 witness: `gpt-5-nano` omits temperature, `gpt-4o` carries it. -/
theorem claim_C4_temperature_rule_witness :
    (buildPayload "gpt-5-nano" (3/10) "sys" "ctx").temperature = none
    ∧ (buildPayload "gpt-4o" (3/10) "sys" "ctx").temperature = some (3/10) :=
  ⟨(claim_C4_temperature_rule "gpt-5-nano" (3/10) "sys" "ctx").1 rfl,
   (claim_C4_temperature_rule "gpt-4o" (3/10) "sys" "ctx").2
      (by decide) rfl⟩

/-- C5: a non-2xx HTTP status yields `success = false`, `response = null`,
`tokens_used = 0`, and an error string containing the status code and the
response body text. -/
theorem claim_C5_http_error_shape (status : Nat) (reason text : String)
    (json : Except String JsonVal) (id : Nat)
    (h : ¬(200 ≤ status ∧ status ≤ 299)) :
    (make_llm_call (.httpResponse status reason text json) id).success = false
    ∧ (make_llm_call (.httpResponse status reason text json) id).response = .null
    ∧ (make_llm_call (.httpResponse status reason text json) id).tokens_used
        = .num 0
    ∧ ∃ s, (make_llm_call (.httpResponse status reason text json) id).error
        = some s
      ∧ strContains s (toString status) ∧ strContains s text := by
  have hout : callOutcome (.httpResponse status reason text json)
      = .error ("HTTP " ++ toString status ++ ": " ++ reason ++ " - " ++ text) := by
    simp [callOutcome, h]
  rw [make_llm_call_of_error _ id _ hout]
  refine ⟨rfl, rfl, rfl, _, rfl, ?_, ?_⟩
  · exact ⟨"HTTP ", ": " ++ reason ++ " - " ++ text,
      by simp only [strAppend_assoc]⟩
  · exact ⟨"HTTP " ++ toString status ++ ": " ++ reason ++ " - ", "",
      by rw [strAppend_empty]⟩

/-- C5 witness: an HTTP 404 with body `nope`. -/
theorem claim_C5_http_error_shape_witness :
    (make_llm_call (.httpResponse 404 "Not Found" "nope" (.ok .null)) 0).success
        = false
    ∧ (make_llm_call (.httpResponse 404 "Not Found" "nope" (.ok .null)) 0).response
        = .null
    ∧ (make_llm_call (.httpResponse 404 "Not Found" "nope" (.ok .null)) 0).tokens_used
        = .num 0
    ∧ ∃ s, (make_llm_call (.httpResponse 404 "Not Found" "nope" (.ok .null)) 0).error
        = some s
      ∧ strContains s (toString 404) ∧ strContains s "nope" :=
  claim_C5_http_error_shape 404 "Not Found" "nope" (.ok .null) 0 (by decide)

/-- C6: a 2xx response whose decoded body is not a mapping, or whose
`choices` entry is missing or an empty array, is recorded as a failed
CallResult with a descriptive error — the raised `ValueError` is caught
by the generic handler, not propagated. -/
theorem claim_C6_bad_shape_recorded (status : Nat) (reason text : String)
    (j : JsonVal) (id : Nat)
    (h2xx : 200 ≤ status ∧ status ≤ 299)
    (hbad : (∀ fs, j ≠ .obj fs)
      ∨ (∃ fs, j = .obj fs
          ∧ (fs.lookup "choices" = none
            ∨ fs.lookup "choices" = some (.arr [])))) :
    (make_llm_call (.httpResponse status reason text (.ok j)) id).success = false
    ∧ ∃ s, (make_llm_call (.httpResponse status reason text (.ok j)) id).error
        = some s ∧ s ≠ "" := by
  have hib : ∃ e, interpretBody j = .error e := by
    rcases hbad with hnotobj | ⟨fs, rfl, hch⟩
    · cases j with
      | obj fs => exact absurd rfl (hnotobj fs)
      | null => exact ⟨_, rfl⟩
      | bool b => exact ⟨_, rfl⟩
      | num n => exact ⟨_, rfl⟩
      | str s => exact ⟨_, rfl⟩
      | arr l => exact ⟨_, rfl⟩
    · refine ⟨"No choices in response", ?_⟩
      have hc : dictGetD fs "choices" (.arr []) = .arr [] := by
        rcases hch with h | h <;> simp [dictGetD, h]
      simp [interpretBody, hc, JsonVal.pyTruthy]
  obtain ⟨e, hib⟩ := hib
  have hout : callOutcome (.httpResponse status reason text (.ok j))
      = .error ("Unexpected error: " ++ e) := by
    simp [callOutcome, h2xx, hib]
  rw [make_llm_call_of_error _ id _ hout]
  exact ⟨rfl, _, rfl, strAppend_ne_empty_left _ _ (by decide)⟩

/-- C6 witness: a 2xx body that is a JSON array, not a mapping. -/
theorem claim_C6_bad_shape_recorded_witness :
    (make_llm_call (.httpResponse 200 "OK" "" (.ok (.arr []))) 1).success = false
    ∧ ∃ s, (make_llm_call (.httpResponse 200 "OK" "" (.ok (.arr []))) 1).error
        = some s ∧ s ≠ "" :=
  claim_C6_bad_shape_recorded 200 "OK" "" (.arr []) 1 (by decide)
    (Or.inl fun fs h => JsonVal.noConfusion h)

/-- C7: in the derived summary the success and failure counts always add
up to the number of results, and when every result carries an integer
token count the token total is their sum. -/
theorem claim_C7_summary_invariants (results : List CallResult)
    (ts : List Int)
    (h : results.map (fun r => r.tokens_used) = ts.map JsonVal.num) :
    (batchSummary results).successful_calls
        + (batchSummary results).failed_calls
        = (batchSummary results).total_calls
    ∧ (batchSummary results).total_tokens_used = .ok ts.sum := by
  constructor
  · exact length_filter_add_length_filter_not (fun r => r.success) results
  · show pySum (results.map fun r => r.tokens_used) = .ok ts.sum
    rw [h, pySum_map_num]

/-- C7 witness: two successful calls reporting 50 and 60 tokens give a
token total of 110 = (50 + 60). -/
theorem claim_C7_summary_invariants_witness :
    (batchSummary
        [make_llm_call (.httpResponse 200 "OK" ""
          (.ok (.obj [("choices", .arr [.obj [("message",
                .obj [("content", .str "a")])]]),
              ("usage", .obj [("total_tokens", .num 50)])]))) 0,
         make_llm_call (.httpResponse 200 "OK" ""
          (.ok (.obj [("choices", .arr [.obj [("message",
                .obj [("content", .str "b")])]]),
              ("usage", .obj [("total_tokens", .num 60)])]))) 1]).successful_calls
      + (batchSummary
        [make_llm_call (.httpResponse 200 "OK" ""
          (.ok (.obj [("choices", .arr [.obj [("message",
                .obj [("content", .str "a")])]]),
              ("usage", .obj [("total_tokens", .num 50)])]))) 0,
         make_llm_call (.httpResponse 200 "OK" ""
          (.ok (.obj [("choices", .arr [.obj [("message",
                .obj [("content", .str "b")])]]),
              ("usage", .obj [("total_tokens", .num 60)])]))) 1]).failed_calls
      = (batchSummary
        [make_llm_call (.httpResponse 200 "OK" ""
          (.ok (.obj [("choices", .arr [.obj [("message",
                .obj [("content", .str "a")])]]),
              ("usage", .obj [("total_tokens", .num 50)])]))) 0,
         make_llm_call (.httpResponse 200 "OK" ""
          (.ok (.obj [("choices", .arr [.obj [("message",
                .obj [("content", .str "b")])]]),
              ("usage", .obj [("total_tokens", .num 60)])]))) 1]).total_calls
    ∧ (batchSummary
        [make_llm_call (.httpResponse 200 "OK" ""
          (.ok (.obj [("choices", .arr [.obj [("message",
                .obj [("content", .str "a")])]]),
              ("usage", .obj [("total_tokens", .num 50)])]))) 0,
         make_llm_call (.httpResponse 200 "OK" ""
          (.ok (.obj [("choices", .arr [.obj [("message",
                .obj [("content", .str "b")])]]),
              ("usage", .obj [("total_tokens", .num 60)])]))) 1]).total_tokens_used
      = .ok ([50, 60] : List Int).sum :=
  claim_C7_summary_invariants _ [50, 60] rfl

theorem callOutcome_ok_interpret (status : Nat) (reason text : String)
    (j : JsonVal) (p : JsonVal × JsonVal)
    (h : callOutcome (.httpResponse status reason text (.ok j)) = .ok p) :
    interpretBody j = .ok p := by
  simp only [callOutcome] at h
  split at h
  · cases hi : interpretBody j with
    | error e => rw [hi] at h; exact absurd h (by simp)
    | ok q => rw [hi] at h; simp only [Except.ok.injEq] at h; rw [h]
  · exact absurd h (by simp)

/-- C8 counterexample: a 2xx body whose `usage.total_tokens` is the
integer -5 yields a successful CallResult with `tokens_used = -5`, so
`tokens_used` is not always non-negative as the claim states. -/
theorem claim_C8_counterexample_negative_tokens :
    (make_llm_call (.httpResponse 200 "OK" ""
        (.ok (.obj [("choices", .arr [.obj [("message",
              .obj [("content", .str "hi")])]]),
            ("usage", .obj [("total_tokens", .num (-5))])]))) 0).success = true
    ∧ (make_llm_call (.httpResponse 200 "OK" ""
        (.ok (.obj [("choices", .arr [.obj [("message",
              .obj [("content", .str "hi")])]]),
            ("usage", .obj [("total_tokens", .num (-5))])]))) 0).tokens_used
        = .num (-5)
    ∧ ¬ (0 : Int) ≤ -5 :=
  ⟨rfl, rfl, by decide⟩

/-- C8 as amended: `tokens_used` is 0 whenever the call failed, and on a
successful call it is the verbatim value found under
`usage.total_tokens` of the decoded body — which is 0 when `usage` is not
a mapping or `total_tokens` is absent (`usageTokens`), but is passed
through unvalidated otherwise, so a negative or non-integer value in the
response body lands in `tokens_used` unchanged. -/
theorem claim_C8_amended_tokens_passthrough (net : NetOutcome) (id : Nat) :
    ((make_llm_call net id).success = false →
      (make_llm_call net id).tokens_used = .num 0)
    ∧ (∀ status reason text fs,
        net = .httpResponse status reason text (.ok (.obj fs)) →
        (make_llm_call net id).success = true →
        (make_llm_call net id).tokens_used = usageTokens fs) := by
  constructor
  · intro hs
    cases h : callOutcome net with
    | error msg => rw [make_llm_call_of_error net id msg h]; rfl
    | ok p =>
      obtain ⟨c, t⟩ := p
      rw [make_llm_call_of_ok net id c t h] at hs
      exact absurd hs (by simp)
  · rintro status reason text fs rfl hs
    cases h : callOutcome (.httpResponse status reason text (.ok (.obj fs))) with
    | error msg =>
      rw [make_llm_call_of_error _ id _ h] at hs
      exact absurd hs (by simp [mkFailure])
    | ok p =>
      obtain ⟨c, t⟩ := p
      rw [make_llm_call_of_ok _ id _ _ h]
      exact interpretBody_ok_snd fs (c, t) (callOutcome_ok_interpret _ _ _ _ _ h)

/-- C8 amended witness: a failed call reports 0 tokens; a successful call
whose body has no `usage` mapping reports the extracted value
(`usageTokens` of its fields, here 0). -/
theorem claim_C8_amended_tokens_passthrough_witness :
    (make_llm_call (.requestError "down") 3).tokens_used = .num 0
    ∧ (make_llm_call (.httpResponse 200 "OK" ""
        (.ok (.obj [("choices", .arr [.obj []])]))) 4).tokens_used
        = usageTokens [("choices", .arr [.obj []])] :=
  ⟨(claim_C8_amended_tokens_passthrough (.requestError "down") 3).1 rfl,
   (claim_C8_amended_tokens_passthrough
      (.httpResponse 200 "OK" "" (.ok (.obj [("choices", .arr [.obj []])]))) 4).2
     200 "OK" "" [("choices", .arr [.obj []])] rfl rfl⟩

/-- C9: the public operation does not validate `num_calls`: with a valid
configuration, any `num_calls ≤ 0` (Python `range` of a non-positive int
is empty) returns an empty result list without raising. -/
theorem claim_C9_no_num_calls_validation (cfg : Config)
    (context system_prompt : String) (net : Nat → NetOutcome) (k : Int)
    (hkey : pyFalsyStr cfg.api_key = false)
    (hurl : pyFalsyStr cfg.base_url = false)
    (hmodel : pyFalsyStr cfg.model = false)
    (hk : k ≤ 0) :
    evaluation_sub_agent_action cfg context k system_prompt net = .ok [] := by
  simp [evaluation_sub_agent_action, hkey, hurl, hmodel,
    Int.toNat_of_nonpos hk]

/-- C9 witness: `num_calls = 0` with a fully set configuration. -/
theorem claim_C9_no_num_calls_validation_witness :
    evaluation_sub_agent_action
      ⟨some "key", some "https://api.example", some "gpt-4o", 3/10⟩
      "ctx" 0 "sys" (fun _ => .requestError "never") = .ok [] :=
  claim_C9_no_num_calls_validation
    ⟨some "key", some "https://api.example", some "gpt-4o", 3/10⟩
    "ctx" "sys" (fun _ => .requestError "never") 0 rfl rfl rfl (by decide)

/-- C10: a 2xx mapping body with a non-empty `choices` array whose first
choice is a mapping lacking `message` (or whose `message` mapping lacks
`content`) is still recorded as `success = true` with `response` the
empty string — the chained `.get` defaults never fail. -/
theorem claim_C10_missing_content_is_success (status : Nat)
    (reason text : String) (fs c0fs : List (String × JsonVal))
    (rest : List JsonVal) (id : Nat)
    (h2xx : 200 ≤ status ∧ status ≤ 299)
    (hchoices : fs.lookup "choices" = some (.arr (.obj c0fs :: rest)))
    (hmsg : c0fs.lookup "message" = none
      ∨ ∃ mfs, c0fs.lookup "message" = some (.obj mfs)
          ∧ mfs.lookup "content" = none) :
    (make_llm_call (.httpResponse status reason text (.ok (.obj fs))) id).success
        = true
    ∧ (make_llm_call (.httpResponse status reason text (.ok (.obj fs))) id).response
        = .str "" := by
  have hib : interpretBody (.obj fs) = .ok (.str "", usageTokens fs) := by
    rcases hmsg with hnone | ⟨mfs, hsome, hcont⟩
    · simp [interpretBody, dictGetD, hchoices, JsonVal.pyTruthy, pySubscript0,
        pyGet, hnone, List.lookup]
    · simp [interpretBody, dictGetD, hchoices, JsonVal.pyTruthy, pySubscript0,
        pyGet, hsome, hcont, List.lookup]
  have hout : callOutcome (.httpResponse status reason text (.ok (.obj fs)))
      = .ok (.str "", usageTokens fs) := by
    simp [callOutcome, h2xx, hib]
  rw [make_llm_call_of_ok _ id _ _ hout]
  exact ⟨rfl, rfl⟩

/-- C10 witness: a first choice carrying only an `index` field. -/
theorem claim_C10_missing_content_is_success_witness :
    (make_llm_call (.httpResponse 200 "OK"
        "" (.ok (.obj [("choices", .arr [.obj [("index", .num 0)]])]))) 2).success
        = true
    ∧ (make_llm_call (.httpResponse 200 "OK"
        "" (.ok (.obj [("choices", .arr [.obj [("index", .num 0)]])]))) 2).response
        = .str "" :=
  claim_C10_missing_content_is_success 200 "OK" ""
    [("choices", .arr [.obj [("index", .num 0)]])] [("index", .num 0)] [] 2
    (by decide) rfl (Or.inl rfl)
